import Mathlib

/-!
Shallow embedding of the CUBRID log replicator core
(`src/transaction/log_replication.cpp`, namespace `cublog`) and proofs of
the specified properties.

External collaborators (log reader page mechanics, buffer pool, recovery
dispatch table, parallel redo engine internals) are represented by
oracles/events: each call the replicator makes into them is recorded as an
event, and each answer they may give is a parameter of the environment.
-/

namespace cublog

/-- Modelled from the spec: a log sequence address (LSA) is a
`(page_id, offset)` pair compared lexicographically; the concrete
`log_lsa` type is outside this translation unit. -/
abbrev log_lsa := Int ×ₗ Int

/-- Build a `log_lsa` from page id and offset. -/
def mk_lsa (pageid offset : Int) : log_lsa := toLex (pageid, offset)

/-- `NO_ERROR` error code (0). -/
def NO_ERROR : Int := 0

/-- `ER_FAILED` generic error code (negative). -/
def ER_FAILED : Int := -1

/-- Modelled from the spec: `MVCCID_NULL` is the null transaction id. -/
def MVCCID_NULL : Nat := 0

/-- Modelled from the spec ("not strictly less than" is its negation):
`MVCC_ID_PRECEDES id1 id2` holds when `id1` is strictly before `id2`. -/
def MVCC_ID_PRECEDES (id1 id2 : Nat) : Prop := id1 < id2

instance (id1 id2 : Nat) : Decidable (MVCC_ID_PRECEDES id1 id2) :=
  inferInstanceAs (Decidable (id1 < id2))

/-- Modelled from the spec ("set `mvcc_next_id := R.mvccid + 1`"):
`MVCCID_FORWARD` advances an MVCCID by one. -/
def MVCCID_FORWARD (id : Nat) : Nat := id + 1

/-- Modelled from the spec: a file identifier `(volid, fileid)`; only the
`volid` component is consumed here (`btid.vfid.volid`). -/
structure VFID where
  volid : Int
  fileid : Int
deriving DecidableEq

/-- Modelled from the spec: a b-tree identifier, a `VFID` plus the root page id. -/
structure BTID where
  vfid : VFID
  root_pageid : Int
deriving DecidableEq

/-- Modelled from the spec: a volume/page identifier. The storage layer lays
the fields out page id first, so the positional initializer
`VPID root_vpid = \x7b btid.root_pageid, btid.vfid.volid \x7d` in the source
sets `pageid := btid.root_pageid` and `volid := btid.vfid.volid`. -/
structure VPID where
  pageid : Int
  volid : Int
deriving DecidableEq

/-- Sentinel VPID `(-2, -2)` for jobs bound to no page (delay probes). -/
def SENTINEL_VPID : VPID := { pageid := -2, volid := -2 }

/-- Modelled from the spec: per-b-tree unique statistics counters. -/
structure log_unique_stats where
  num_keys : Int
  num_oids : Int
  num_nulls : Int
deriving DecidableEq

/-- The log record types distinguished by `replicator::redo_upto`'s switch;
`LOG_OTHER` stands for every type falling to its `default:` arm. -/
inductive LOG_RECTYPE where
  | LOG_REDO_DATA
  | LOG_MVCC_REDO_DATA
  | LOG_UNDOREDO_DATA
  | LOG_DIFF_UNDOREDO_DATA
  | LOG_MVCC_UNDOREDO_DATA
  | LOG_MVCC_DIFF_UNDOREDO_DATA
  | LOG_RUN_POSTPONE
  | LOG_COMPENSATE
  | LOG_DBEXTERN_REDO_DATA
  | LOG_COMMIT
  | LOG_ABORT
  | LOG_DUMMY_HA_SERVER_STATE
  | LOG_OTHER
deriving DecidableEq

/-- Recovery indices: the replicator only distinguishes
`RVBT_LOG_GLOBAL_UNIQUE_STATS_COMMIT` from everything else (`RV_OTHER n`). -/
inductive LOG_RCVINDEX where
  | RVBT_LOG_GLOBAL_UNIQUE_STATS_COMMIT
  | RV_OTHER (n : Nat)
deriving DecidableEq

/-- Fixed header prefix of every log record (`log_rec_header`): the record
type and the LSA of the next record. -/
structure log_rec_header where
  type : LOG_RECTYPE
  forw_lsa : log_lsa
deriving DecidableEq

/-- Decoded content of one generic-pipeline record (any of the `log_rec_redo`,
`log_rec_mvcc_redo`, `log_rec_undoredo`, `log_rec_mvcc_undoredo`,
`log_rec_run_postpone`, `log_rec_compensate` template instantiations), holding
what the external accessors return for it: `log_rv_get_log_rec_mvccid`,
`log_rv_get_log_rec_data (...).rcvindex`, and for the b-tree stats path the
`btree_rv_data_get_btid_and_stats` decode of its redo payload. -/
structure generic_rec where
  mvccid : Nat
  rcvindex : LOG_RCVINDEX
  btid : BTID
  stats : log_unique_stats
deriving DecidableEq

/-- Decoded `log_rec_dbout_redo` content: recovery index and redo length. -/
structure log_rec_dbout_redo where
  rcvindex : LOG_RCVINDEX
  length : Nat
deriving DecidableEq

/-- One log record as the reader decodes it at a given LSA: the header plus
the decode results for each reinterpretation the switch may perform
(generic record, `log_rec_dbout_redo`, and the `at_time` field shared by
`log_rec_donetime` / `log_rec_ha_server_state`). -/
structure log_record where
  header : log_rec_header
  generic : generic_rec
  dbout : log_rec_dbout_redo
  at_time : Int
deriving DecidableEq

/-- Environment: the answers of the external collaborators, plus the
configuration fixed at `replicator` construction. `has_engine` is whether
`PRM_ID_REPLICATION_PARALLEL_COUNT > 0` instantiated
`m_parallel_replication_redo`. `redo_data_fetch_ok l` is whether
`log_rv_get_log_rec_redo_data` succeeds for the record at `l`;
`page_fix_ok v` is whether `log_rv_redo_fix_page` returns a non-null page. -/
structure env where
  log : log_lsa → log_record
  has_engine : Bool
  redo_data_fetch_ok : log_lsa → Bool
  page_fix_ok : VPID → Bool
  end_time_msec : Int
  er_log_calc_repl_delay : Bool

/-- Mutable replicator state threaded through the producer loop:
`m_redo_lsa` and the process-wide `log_Gl.hdr.mvcc_next_id`. -/
structure replicator_state where
  m_redo_lsa : log_lsa
  mvcc_next_id : Nat
deriving DecidableEq

/-*********************************************************************
 * replication delay calculation
 *********************************************************************-/

/-- Observable outcome of `log_rpl_calculate_replication_delay`: whether the
`PSTAT_REDO_REPL_DELAY` metric was published (and its value), which debug
logs fired, and the returned error code. -/
structure delay_probe_result where
  published_delay_stat : Bool
  delay_stat_value : Int
  calc_delay_debug_logged : Bool
  bogus_time_debug_logged : Bool
  ret : Int
deriving DecidableEq

/-- `log_rpl_calculate_replication_delay`: when the start time is positive,
publish `now - start` as `PSTAT_REDO_REPL_DELAY` (plus an optional debug
line under `PRM_ID_ER_LOG_CALC_REPL_DELAY`) and return `NO_ERROR`;
otherwise skip the calculation, log a debug line about the bogus start
time, and return `ER_FAILED`. -/
def log_rpl_calculate_replication_delay (er_log_calc_repl_delay : Bool)
    (end_time_msec a_start_time_msec : Int) : delay_probe_result :=
  if a_start_time_msec > 0 then
    { published_delay_stat := true
      delay_stat_value := end_time_msec - a_start_time_msec
      calc_delay_debug_logged := er_log_calc_repl_delay
      bogus_time_debug_logged := false
      ret := NO_ERROR }
  else
    { published_delay_stat := false
      delay_stat_value := 0
      calc_delay_debug_logged := false
      bogus_time_debug_logged := true
      ret := ER_FAILED }

/-- `redo_job_replication_delay_impl::execute`: runs the probe on the stored
start time and returns the probe's result code unchanged. -/
def redo_job_replication_delay_impl_execute (er_log_calc_repl_delay : Bool)
    (end_time_msec m_start_time_msec : Int) : Int :=
  (log_rpl_calculate_replication_delay er_log_calc_repl_delay end_time_msec m_start_time_msec).ret

/-*********************************************************************
 * replication b-tree unique statistics
 *********************************************************************-/

/-- Buffer-pool operations performed on a fixed page, in order. -/
inductive page_op where
  | btree_root_update_stats (stats : log_unique_stats)
  | pgbuf_set_lsa (l : log_lsa)
  | pgbuf_set_dirty_and_free
deriving DecidableEq

/-- Outcome of `replicate_btree_stats`: either the root page fix failed and
`logpb_fatal_error` terminated the process, or the page was fixed and the
three buffer-pool operations were applied to it. -/
inductive btree_stats_outcome where
  | fatal_page_fix
  | applied (vpid : VPID) (ops : List page_op)
deriving DecidableEq

/-- `replicate_btree_stats`: fix the root page for redo; a null page is a
fatal error; otherwise merge the stats into the root page, set the page LSA
to the record LSA, and mark the page dirty and free it. -/
def replicate_btree_stats (page_fix_ok : Bool) (root_vpid : VPID)
    (stats : log_unique_stats) (record_lsa : log_lsa) : btree_stats_outcome :=
  if page_fix_ok then
    .applied root_vpid
      [ .btree_root_update_stats stats, .pgbuf_set_lsa record_lsa, .pgbuf_set_dirty_and_free ]
  else
    .fatal_page_fix

/-- `redo_job_btree_stats::execute`: runs `replicate_btree_stats` on the
job's stored VPID, stats and LSA, then returns `NO_ERROR`. The result is
`none` when the page fix failed, since `logpb_fatal_error` does not return
control; in every returning execution the result code is `NO_ERROR`. -/
def redo_job_btree_stats_execute (page_fix_ok : Bool) (vpid : VPID)
    (stats : log_unique_stats) (record_lsa : log_lsa) : Option Int :=
  match replicate_btree_stats page_fix_ok vpid stats record_lsa with
  | .fatal_page_fix => none
  | .applied _ _ => some NO_ERROR

/-*********************************************************************
 * producer pipeline
 *********************************************************************-/

/-- Calls the producer loop makes into external collaborators, recorded in
program order. `fatal` is `logpb_fatal_error` with its diagnostic string. -/
inductive rv_call where
  | log_rv_redo_record (rcvindex : LOG_RCVINDEX)
  | log_rv_redo_sync (rcvindex : LOG_RCVINDEX)
  | engine_add_generic (rec_lsa : log_lsa)
  | engine_add_btree_stats (vpid : VPID) (rec_lsa : log_lsa) (stats : log_unique_stats)
  | engine_add_delay (rec_lsa : log_lsa) (start_time_msec : Int)
  | probe_sync (r : delay_probe_result)
  | btree_apply (vpid : VPID) (ops : List page_op)
  | fatal (site : String)
  | minimum_lsa_set_for_outer (l : log_lsa)
  | condvar_notify_all
deriving DecidableEq

/-- Whether a call hands a job to the parallel redo engine. -/
def rv_call.is_engine_add : rv_call → Bool
  | .engine_add_generic _ => true
  | .engine_add_btree_stats _ _ _ => true
  | .engine_add_delay _ _ => true
  | _ => false

/-- Render a `replicate_btree_stats` outcome as the recorded calls. -/
def btree_stats_calls : btree_stats_outcome → List rv_call
  | .fatal_page_fix => [ .fatal "cublog::replicate_btree_stats" ]
  | .applied vpid ops => [ .btree_apply vpid ops ]

/-- `replicator::read_and_redo_btree_stats`: read the redo payload (a failed
read is fatal), decode `(BTID, stats)`, form the root VPID from the BTID,
then either enqueue a `redo_job_btree_stats` on the parallel engine or apply
the change immediately via `replicate_btree_stats`. -/
def read_and_redo_btree_stats (e : env) (rec_lsa : log_lsa) (r : generic_rec) : List rv_call :=
  if e.redo_data_fetch_ok rec_lsa then
    let root_vpid : VPID := { pageid := r.btid.root_pageid, volid := r.btid.vfid.volid }
    if e.has_engine then
      [ .engine_add_btree_stats root_vpid rec_lsa r.stats ]
    else
      btree_stats_calls (replicate_btree_stats (e.page_fix_ok root_vpid) root_vpid r.stats rec_lsa)
  else
    [ .fatal "replicator::read_and_redo_btree_stats" ]

/-- Modelled from the spec: `log_rv_redo_record_sync_or_dispatch_async`
(external) applies the record synchronously through the recovery-index
handler when no parallel engine is given, and otherwise builds a redo job
for the record and enqueues it. -/
def log_rv_redo_record_sync_or_dispatch_async (e : env) (rec_lsa : log_lsa)
    (r : generic_rec) : rv_call :=
  if e.has_engine then .engine_add_generic rec_lsa else .log_rv_redo_sync r.rcvindex

/-- The MVCC bump of `replicator::read_and_redo_record`: when the record's
MVCCID is non-null and does not precede `mvcc_next_id`, set `mvcc_next_id`
to the record's MVCCID and advance it by one. -/
def mvcc_bump (mvccid mvcc_next_id : Nat) : Nat :=
  if mvccid ≠ MVCCID_NULL ∧ ¬ MVCC_ID_PRECEDES mvccid mvcc_next_id then
    MVCCID_FORWARD mvccid
  else
    mvcc_next_id

/-- `replicator::read_and_redo_record`: perform the MVCC bump, then branch on
the record's recovery index — `RVBT_LOG_GLOBAL_UNIQUE_STATS_COMMIT` goes to
the b-tree stats path, everything else to the generic sync-or-dispatch
redo. Returns the new `mvcc_next_id` and the recorded calls. -/
def read_and_redo_record (e : env) (mvcc_next_id : Nat) (rec_lsa : log_lsa)
    (r : generic_rec) : Nat × List rv_call :=
  let next := mvcc_bump r.mvccid mvcc_next_id
  if r.rcvindex = .RVBT_LOG_GLOBAL_UNIQUE_STATS_COMMIT then
    (next, read_and_redo_btree_stats e rec_lsa r)
  else
    (next, [ log_rv_redo_record_sync_or_dispatch_async e rec_lsa r ])

/-- `replicator::calculate_replication_delay_or_dispatch_async`: with a
parallel engine, enqueue a sentinel-VPID delay job carrying `m_redo_lsa` and
the record's `at_time`; without one, run the probe synchronously (its result
code is discarded — the call is the last statement of a `void` branch). -/
def calculate_replication_delay_or_dispatch_async (e : env) (m_redo_lsa : log_lsa)
    (at_time : Int) : List rv_call :=
  if e.has_engine then
    [ .engine_add_delay m_redo_lsa at_time ]
  else
    [ .probe_sync (log_rpl_calculate_replication_delay e.er_log_calc_repl_delay e.end_time_msec at_time) ]

/-- One iteration of the `while` loop of `replicator::redo_upto`: decode the
header at `m_redo_lsa`, dispatch on the record type, then set
`m_redo_lsa := header.forw_lsa` (under `m_redo_lsa_mutex`), publish it to
the minimum-LSA monitor when the engine exists, and notify the condvar. -/
def redo_upto_step (e : env) (st : replicator_state) : replicator_state × List rv_call :=
  let rec0 := e.log st.m_redo_lsa
  let header := rec0.header
  let dispatched : Nat × List rv_call :=
    match header.type with
    | .LOG_REDO_DATA | .LOG_MVCC_REDO_DATA
    | .LOG_UNDOREDO_DATA | .LOG_DIFF_UNDOREDO_DATA
    | .LOG_MVCC_UNDOREDO_DATA | .LOG_MVCC_DIFF_UNDOREDO_DATA
    | .LOG_RUN_POSTPONE | .LOG_COMPENSATE =>
        read_and_redo_record e st.mvcc_next_id st.m_redo_lsa rec0.generic
    | .LOG_DBEXTERN_REDO_DATA =>
        (st.mvcc_next_id, [ .log_rv_redo_record rec0.dbout.rcvindex ])
    | .LOG_COMMIT | .LOG_ABORT | .LOG_DUMMY_HA_SERVER_STATE =>
        (st.mvcc_next_id, calculate_replication_delay_or_dispatch_async e st.m_redo_lsa rec0.at_time)
    | .LOG_OTHER =>
        (st.mvcc_next_id, [])
  ( { m_redo_lsa := header.forw_lsa, mvcc_next_id := dispatched.1 },
    dispatched.2
      ++ (if e.has_engine then [ .minimum_lsa_set_for_outer header.forw_lsa ] else [])
      ++ [ .condvar_notify_all ] )

/-- The `while (m_redo_lsa < end_redo_lsa)` loop of `replicator::redo_upto`,
with explicit fuel bounding the number of iterations. -/
def redo_upto_loop (e : env) (end_redo_lsa : log_lsa) (fuel : Nat)
    (st : replicator_state) : replicator_state × List rv_call :=
  match fuel with
  | 0 => (st, [])
  | fuel + 1 =>
    if st.m_redo_lsa < end_redo_lsa then
      let stepped := redo_upto_step e st
      let rest := redo_upto_loop e end_redo_lsa fuel stepped.1
      (rest.1, stepped.2 ++ rest.2)
    else
      (st, [])

/-*********************************************************************
 * waiter protocol
 *********************************************************************-/

/-- Steps taken by the blocking entry points, in program order. The two
condvar steps name the predicate the wait releases on; the engine steps are
the calls into `m_parallel_replication_redo` / `m_minimum_log_lsa`. -/
inductive wait_step where
  | condvar_wait_m_redo_lsa_gt (target : log_lsa)
  | condvar_wait_m_redo_lsa_ge_nxio
  | engine_wait_for_idle
  | engine_monitor_wait_past (target : log_lsa)
  | engine_set_adding_finished
  | engine_wait_for_termination_and_stop_execution
  | destroy_daemon
deriving DecidableEq

/-- Release condition of each wait step, evaluated against an observed
`m_redo_lsa` and the log's current `nxio_lsa`; non-waiting steps are
trivially released. -/
def wait_step_releases (m_redo_lsa nxio_lsa : log_lsa) : wait_step → Bool
  | .condvar_wait_m_redo_lsa_gt target => decide (target < m_redo_lsa)
  | .condvar_wait_m_redo_lsa_ge_nxio => decide (nxio_lsa ≤ m_redo_lsa)
  | _ => true

/-- `replicator::wait_past_target_lsa`: without a parallel engine, wait on
`m_redo_lsa_condvar` under `m_redo_lsa_mutex` until `m_redo_lsa > target`;
with one, delegate to `m_minimum_log_lsa->wait_past_target_lsa`. -/
def wait_past_target_lsa (has_engine : Bool) (a_target_lsa : log_lsa) : List wait_step :=
  if has_engine then
    [ .engine_monitor_wait_past a_target_lsa ]
  else
    [ .condvar_wait_m_redo_lsa_gt a_target_lsa ]

/-- `replicator::wait_replication_finish_during_shutdown`: under
`m_redo_lsa_mutex`, wait on `m_redo_lsa_condvar` until
`m_redo_lsa ≥ log_Gl.append.get_nxio_lsa ()`, then, when the parallel
engine exists, call its `wait_for_idle`. -/
def wait_replication_finish_during_shutdown (has_engine : Bool) : List wait_step :=
  [ .condvar_wait_m_redo_lsa_ge_nxio ]
    ++ (if has_engine then [ .engine_wait_for_idle ] else [])

/-- `replicator::~replicator`: destroy the daemon, then, when the parallel
engine exists, close its input and stop it — the only call sites of
`set_adding_finished` and `wait_for_termination_and_stop_execution`. -/
def replicator_destructor (has_engine : Bool) : List wait_step :=
  [ .destroy_daemon ]
    ++ (if has_engine then
          [ .engine_set_adding_finished, .engine_wait_for_termination_and_stop_execution ]
        else [])

/-*********************************************************************
 * concrete fixtures
 *********************************************************************-/

/-- Whether a recorded call is a `logpb_fatal_error`. -/
def rv_call.is_fatal : rv_call → Bool
  | .fatal _ => true
  | _ => false

/-- Concrete LSA `(5, 0)`. -/
def lsa0 : log_lsa := mk_lsa 5 0

/-- Concrete end-of-redo LSA `(6, 0)`. -/
def end_lsa0 : log_lsa := mk_lsa 6 0

/-- Concrete b-tree stats. -/
def stats0 : log_unique_stats := { num_keys := 5, num_oids := 10, num_nulls := 0 }

/-- Concrete BTID with root page 42 on volume 2. -/
def btid0 : BTID := { vfid := { volid := 2, fileid := 10 }, root_pageid := 42 }

/-- Concrete generic record with an ordinary recovery index. -/
def grec0 : generic_rec :=
  { mvccid := 7, rcvindex := .RV_OTHER 3, btid := btid0, stats := stats0 }

/-- Concrete generic record carrying the b-tree stats recovery index. -/
def grec_stats0 : generic_rec :=
  { mvccid := 7, rcvindex := .RVBT_LOG_GLOBAL_UNIQUE_STATS_COMMIT, btid := btid0, stats := stats0 }

/-- Concrete decoded `log_rec_dbout_redo`. -/
def dbout0 : log_rec_dbout_redo := { rcvindex := .RV_OTHER 9, length := 16 }

/-- A record whose `forw_lsa` points back at its own LSA `lsa0`. -/
def selfloop_record : log_record :=
  { header := { type := .LOG_REDO_DATA, forw_lsa := lsa0 }
    generic := grec0
    dbout := dbout0
    at_time := 1000 }

/-- Environment whose log holds the self-looping record everywhere, with no
parallel engine and all external calls succeeding. -/
def env_selfloop : env :=
  { log := fun _ => selfloop_record
    has_engine := false
    redo_data_fetch_ok := fun _ => true
    page_fix_ok := fun _ => true
    end_time_msec := 100
    er_log_calc_repl_delay := false }

/-- Environment whose records all advance straight to `end_lsa0`. -/
def env_advance : env :=
  { log := fun _ =>
      { header := { type := .LOG_OTHER, forw_lsa := end_lsa0 }
        generic := grec0
        dbout := dbout0
        at_time := 1000 }
    has_engine := false
    redo_data_fetch_ok := fun _ => true
    page_fix_ok := fun _ => true
    end_time_msec := 100
    er_log_calc_repl_delay := false }

/-- Environment with the parallel engine present whose record at every LSA
is a `LOG_DBEXTERN_REDO_DATA` record advancing to `end_lsa0`. -/
def env_dbout : env :=
  { log := fun _ =>
      { header := { type := .LOG_DBEXTERN_REDO_DATA, forw_lsa := end_lsa0 }
        generic := grec0
        dbout := dbout0
        at_time := 1000 }
    has_engine := true
    redo_data_fetch_ok := fun _ => true
    page_fix_ok := fun _ => true
    end_time_msec := 100
    er_log_calc_repl_delay := false }

/-- Initial replicator state at `lsa0`. -/
def st0 : replicator_state := { m_redo_lsa := lsa0, mvcc_next_id := 0 }

end cublog

namespace cublog

/-*********************************************************************
 * helper lemmas
 *********************************************************************-/

/-- The MVCC bump never decreases `mvcc_next_id`. -/
lemma mvcc_bump_le (i nx : Nat) : nx ≤ mvcc_bump i nx := by
  unfold mvcc_bump MVCCID_FORWARD MVCC_ID_PRECEDES
  split
  · rename_i h
    exact Nat.le_succ_of_le (Nat.le_of_not_lt h.2)
  · exact Nat.le_refl _

/-- The MVCC bump leaves `mvcc_next_id` strictly above any non-null MVCCID
it was fed. -/
lemma mvcc_bump_gt (i nx : Nat) (h : i ≠ MVCCID_NULL) : i < mvcc_bump i nx := by
  unfold mvcc_bump MVCCID_FORWARD MVCC_ID_PRECEDES
  split
  · exact Nat.lt_succ_self i
  · rename_i hc
    push_neg at hc
    exact hc h

/-- The `mvcc_next_id` component of `read_and_redo_record` is the MVCC bump,
whatever the recovery-index branch does. -/
lemma read_and_redo_record_fst (e : env) (nx : Nat) (l : log_lsa) (r : generic_rec) :
    (read_and_redo_record e nx l r).1 = mvcc_bump r.mvccid nx := by
  unfold read_and_redo_record
  split <;> rfl

/-- The `mvcc_next_id` evolution across a sequence of generic-pipeline
records, each processed by `read_and_redo_record`. -/
def pipeline_mvcc (e : env) (items : List (log_lsa × generic_rec)) (init : Nat) : Nat :=
  items.foldl (fun nx it => (read_and_redo_record e nx it.1 it.2).1) init

/-- Unfolding `pipeline_mvcc` over a head record. -/
lemma pipeline_mvcc_cons (e : env) (a : log_lsa × generic_rec)
    (tl : List (log_lsa × generic_rec)) (init : Nat) :
    pipeline_mvcc e (a :: tl) init
      = pipeline_mvcc e tl ((read_and_redo_record e init a.1 a.2).1) := rfl

/-- `pipeline_mvcc` never decreases the id it starts from. -/
lemma pipeline_mvcc_init_le (e : env) (items : List (log_lsa × generic_rec)) (init : Nat) :
    init ≤ pipeline_mvcc e items init := by
  induction items generalizing init with
  | nil => exact Nat.le_refl _
  | cons a tl ih =>
    rw [pipeline_mvcc_cons]
    refine le_trans ?_ (ih _)
    rw [read_and_redo_record_fst]
    exact mvcc_bump_le _ _

/-- The `m_redo_lsa` component of the loop-body step is the decoded header's
`forw_lsa`. -/
lemma redo_upto_step_m_redo_lsa (e : env) (st : replicator_state) :
    (redo_upto_step e st).1.m_redo_lsa = (e.log st.m_redo_lsa).header.forw_lsa := rfl

/-- Modelled from the spec: the log below `end_lsa` is well-formed — every
record's `forw_lsa` strictly advances and stays within `end_lsa`. -/
def log_wellformed_upto (e : env) (end_lsa : log_lsa) : Prop :=
  ∀ l : log_lsa, l < end_lsa →
    l < (e.log l).header.forw_lsa ∧ (e.log l).header.forw_lsa ≤ end_lsa

/-*********************************************************************
 * claim theorems
 *********************************************************************-/

/-- C1 counterexample: the claim that no error is surfaced from the delay
probe in async mode is false — for a record with `at_time = -1`, the async
job `redo_job_replication_delay_impl::execute` returns the probe's
`ER_FAILED` result to the parallel engine instead of `NO_ERROR`. -/
theorem C1_counterexample_async_probe_error_surfaced :
    redo_job_replication_delay_impl_execute false 100 (-1) = ER_FAILED
      ∧ ER_FAILED ≠ NO_ERROR := by
  constructor
  · rfl
  · decide

/-- C1 (amended): for a delay record with `start_time_msec ≤ 0`, the probe
skips the calculation (no `REDO_REPL_DELAY` metric is published), logs only
a debug entry, and returns `ER_FAILED`; in sync mode the caller discards
that result code (the probe call is a statement in a `void` branch), while
in async mode the job's `execute` returns `ER_FAILED` to the engine. -/
theorem C1_amended_bogus_delay_probe (e : env) (l : log_lsa) (t : Int)
    (ht : t ≤ 0) (hs : e.has_engine = false) :
    log_rpl_calculate_replication_delay e.er_log_calc_repl_delay e.end_time_msec t
        = { published_delay_stat := false
            delay_stat_value := 0
            calc_delay_debug_logged := false
            bogus_time_debug_logged := true
            ret := ER_FAILED }
      ∧ calculate_replication_delay_or_dispatch_async e l t
        = [ .probe_sync (log_rpl_calculate_replication_delay e.er_log_calc_repl_delay e.end_time_msec t) ]
      ∧ redo_job_replication_delay_impl_execute e.er_log_calc_repl_delay e.end_time_msec t
        = ER_FAILED := by
  have hneg : ¬ t > 0 := by omega
  refine ⟨?_, ?_, ?_⟩
  · simp [log_rpl_calculate_replication_delay, hneg]
  · simp [calculate_replication_delay_or_dispatch_async, hs]
  · simp [redo_job_replication_delay_impl_execute, log_rpl_calculate_replication_delay, hneg, ER_FAILED]

/-- C1 witness: the amended statement instantiated at `start_time = -1`
in a concrete engine-less environment. -/
theorem C1_amended_bogus_delay_probe_witness :
    ((-1 : Int) ≤ 0 ∧ env_selfloop.has_engine = false)
      ∧ (log_rpl_calculate_replication_delay env_selfloop.er_log_calc_repl_delay
            env_selfloop.end_time_msec (-1)
          = { published_delay_stat := false
              delay_stat_value := 0
              calc_delay_debug_logged := false
              bogus_time_debug_logged := true
              ret := ER_FAILED }
        ∧ calculate_replication_delay_or_dispatch_async env_selfloop lsa0 (-1)
          = [ .probe_sync (log_rpl_calculate_replication_delay env_selfloop.er_log_calc_repl_delay
                env_selfloop.end_time_msec (-1)) ]
        ∧ redo_job_replication_delay_impl_execute env_selfloop.er_log_calc_repl_delay
            env_selfloop.end_time_msec (-1)
          = ER_FAILED) :=
  ⟨⟨by decide, rfl⟩, C1_amended_bogus_delay_probe env_selfloop lsa0 (-1) (by decide) rfl⟩

/-- C2 counterexample: the claim that a record whose `forward_lsa` equals
`m_redo_lsa` triggers a malformed-log fatal is false — on a concrete log
whose record at `lsa0` has `forw_lsa = lsa0`, the loop body performs the
ordinary dispatch and cursor assignment with no `logpb_fatal_error` call,
and the loop keeps spinning in place. -/
theorem C2_counterexample_no_fatal_on_nonadvancing_forw_lsa :
    (redo_upto_step env_selfloop st0).1.m_redo_lsa = st0.m_redo_lsa
      ∧ (redo_upto_step env_selfloop st0).2
        = [ .log_rv_redo_sync (.RV_OTHER 3), .condvar_notify_all ]
      ∧ (redo_upto_loop env_selfloop end_lsa0 3 st0).1.m_redo_lsa = st0.m_redo_lsa
      ∧ ((redo_upto_loop env_selfloop end_lsa0 3 st0).2.filter rv_call.is_fatal) = [] := by
  refine ⟨rfl, rfl, ?_, ?_⟩ <;> decide

/-- C2 (amended): `redo_upto` has no malformed-log check on the decoded
header — every iteration unconditionally sets `m_redo_lsa` to
`header.forw_lsa`, so a record whose `forward_lsa` equals `m_redo_lsa`
leaves the cursor in place and the loop continues (no fatal is raised for
the non-advance). -/
theorem C2_amended_forw_lsa_assigned_unconditionally (e : env) (st : replicator_state) :
    (redo_upto_step e st).1.m_redo_lsa = (e.log st.m_redo_lsa).header.forw_lsa := rfl

/-- C4: in the generic redo pipeline, a record whose MVCCID is non-null and
does not precede `mvcc_next_id` sets `mvcc_next_id` to that MVCCID plus one,
and after processing any sequence of records `mvcc_next_id` is strictly
greater than every non-null MVCCID seen. -/
theorem C4_mvcc_next_id_dominates (e : env) (items : List (log_lsa × generic_rec))
    (init nx : Nat) (l : log_lsa) (r : generic_rec)
    (hmem : (l, r) ∈ items) (hnull : r.mvccid ≠ MVCCID_NULL) :
    (¬ MVCC_ID_PRECEDES r.mvccid nx → (read_and_redo_record e nx l r).1 = r.mvccid + 1)
      ∧ r.mvccid < pipeline_mvcc e items init := by
  constructor
  · intro hge
    rw [read_and_redo_record_fst]
    unfold mvcc_bump MVCCID_FORWARD
    simp [hnull, hge]
  · clear nx
    revert hmem
    induction items generalizing init with
    | nil =>
      intro hmem
      cases hmem
    | cons a tl ih =>
      intro hmem
      rw [pipeline_mvcc_cons]
      rcases List.mem_cons.mp hmem with heq | hmemtl
      · refine lt_of_lt_of_le ?_ (pipeline_mvcc_init_le _ _ _)
        rw [← heq, read_and_redo_record_fst]
        exact mvcc_bump_gt _ _ hnull
      · exact ih _ hmemtl

/-- C4 witness: the record `grec0` (MVCCID 7) in a one-record pipeline
starting from `mvcc_next_id = 0`, with the bump equation checked against
`mvcc_next_id = 5`. -/
theorem C4_mvcc_next_id_dominates_witness :
    ((lsa0, grec0) ∈ [(lsa0, grec0)] ∧ grec0.mvccid ≠ MVCCID_NULL)
      ∧ ((¬ MVCC_ID_PRECEDES grec0.mvccid 5 →
            (read_and_redo_record env_selfloop 5 lsa0 grec0).1 = grec0.mvccid + 1)
        ∧ grec0.mvccid < pipeline_mvcc env_selfloop [(lsa0, grec0)] 0) :=
  ⟨⟨by decide, by decide⟩,
   C4_mvcc_next_id_dominates env_selfloop [(lsa0, grec0)] 0 5 lsa0 grec0 (by decide) (by decide)⟩

/-- C5: within one `redo_upto (end_redo_lsa)` call on a well-formed log,
`m_redo_lsa` never decreases and never exceeds the `nxio_lsa` snapshot
`end_redo_lsa` taken at the start of the call. -/
theorem C5_redo_lsa_monotone_bounded (e : env) (end_redo_lsa : log_lsa) (fuel : Nat)
    (st : replicator_state) (hwf : log_wellformed_upto e end_redo_lsa)
    (hst : st.m_redo_lsa ≤ end_redo_lsa) :
    st.m_redo_lsa ≤ (redo_upto_loop e end_redo_lsa fuel st).1.m_redo_lsa
      ∧ (redo_upto_loop e end_redo_lsa fuel st).1.m_redo_lsa ≤ end_redo_lsa := by
  induction fuel generalizing st with
  | zero => exact ⟨le_refl _, hst⟩
  | succ fuel ih =>
    by_cases hlt : st.m_redo_lsa < end_redo_lsa
    · have hwfl := hwf st.m_redo_lsa hlt
      have h1 : (redo_upto_loop e end_redo_lsa (fuel + 1) st).1
          = (redo_upto_loop e end_redo_lsa fuel (redo_upto_step e st).1).1 := by
        simp [redo_upto_loop, hlt]
      have hle : (redo_upto_step e st).1.m_redo_lsa ≤ end_redo_lsa := by
        rw [redo_upto_step_m_redo_lsa]
        exact hwfl.2
      have ihres := ih (redo_upto_step e st).1 hle
      rw [h1]
      constructor
      · refine le_trans (le_of_lt ?_) ihres.1
        rw [redo_upto_step_m_redo_lsa]
        exact hwfl.1
      · exact ihres.2
    · have h0 : (redo_upto_loop e end_redo_lsa (fuel + 1) st).1 = st := by
        simp [redo_upto_loop, hlt]
      rw [h0]
      exact ⟨le_refl _, hst⟩

/-- C5 witness: the concrete advancing log, starting at `lsa0 = (5,0)` with
snapshot `end_lsa0 = (6,0)` and fuel 2. -/
theorem C5_redo_lsa_monotone_bounded_witness :
    (log_wellformed_upto env_advance end_lsa0 ∧ st0.m_redo_lsa ≤ end_lsa0)
      ∧ (st0.m_redo_lsa ≤ (redo_upto_loop env_advance end_lsa0 2 st0).1.m_redo_lsa
        ∧ (redo_upto_loop env_advance end_lsa0 2 st0).1.m_redo_lsa ≤ end_lsa0) :=
  ⟨⟨fun l hl => ⟨hl, le_refl _⟩, by decide⟩,
   C5_redo_lsa_monotone_bounded env_advance end_lsa0 2 st0
     (fun l hl => ⟨hl, le_refl _⟩) (by decide)⟩

/-- C6: `wait_past_target_lsa` without a parallel engine performs exactly the
condvar wait whose release condition is `m_redo_lsa > target`, and with the
engine present delegates entirely to the MinLsaMonitor's
`wait_past_target_lsa`. -/
theorem C6_wait_past_target_lsa_modes (L cur nx : log_lsa) :
    wait_past_target_lsa false L = [ .condvar_wait_m_redo_lsa_gt L ]
      ∧ (wait_step_releases cur nx (.condvar_wait_m_redo_lsa_gt L) = true ↔ L < cur)
      ∧ wait_past_target_lsa true L = [ .engine_monitor_wait_past L ] := by
  refine ⟨rfl, ?_, rfl⟩
  simp [wait_step_releases]

/-- C7: `wait_replication_finish_during_shutdown` first waits on
`m_redo_lsa_condvar` with release condition `m_redo_lsa ≥ nxio_lsa`, calls
the engine's `wait_for_idle` exactly when the engine exists, and never calls
`set_adding_finished` or `wait_for_termination_and_stop_execution`. -/
theorem C7_shutdown_wait_drains_only (he : Bool) (cur nx : log_lsa) :
    (wait_replication_finish_during_shutdown he).head? = some .condvar_wait_m_redo_lsa_ge_nxio
      ∧ (wait_step_releases cur nx .condvar_wait_m_redo_lsa_ge_nxio = true ↔ nx ≤ cur)
      ∧ ((.engine_wait_for_idle ∈ wait_replication_finish_during_shutdown he) ↔ he = true)
      ∧ .engine_set_adding_finished ∉ wait_replication_finish_during_shutdown he
      ∧ .engine_wait_for_termination_and_stop_execution
          ∉ wait_replication_finish_during_shutdown he := by
  cases he <;>
    simp [wait_replication_finish_during_shutdown, wait_step_releases]

/-- C3: for a `GLOBAL_UNIQUE_STATS_COMMIT` record whose payload read
succeeds, the root VPID is formed from `(btid.vfid.volid, btid.root_pageid)`
and the replicator either enqueues a `redo_job_btree_stats` with that VPID,
the record LSA and the stats (parallel engine present), or immediately fixes
the root page, merges the stats, sets the page LSA to the record LSA and
marks it dirty and frees it — a failed page fix being fatal. -/
theorem C3_btree_stats_routing (e : env) (rec_lsa : log_lsa) (r : generic_rec)
    (hfetch : e.redo_data_fetch_ok rec_lsa = true) :
    read_and_redo_btree_stats e rec_lsa r
      = (if e.has_engine then
          [ .engine_add_btree_stats { pageid := r.btid.root_pageid, volid := r.btid.vfid.volid }
              rec_lsa r.stats ]
        else if e.page_fix_ok { pageid := r.btid.root_pageid, volid := r.btid.vfid.volid } then
          [ .btree_apply { pageid := r.btid.root_pageid, volid := r.btid.vfid.volid }
              [ .btree_root_update_stats r.stats, .pgbuf_set_lsa rec_lsa,
                .pgbuf_set_dirty_and_free ] ]
        else
          [ .fatal "cublog::replicate_btree_stats" ]) := by
  unfold read_and_redo_btree_stats
  rw [hfetch]
  cases he : e.has_engine
  · simp only [if_neg Bool.false_ne_true, if_true]
    cases hp : e.page_fix_ok { pageid := r.btid.root_pageid, volid := r.btid.vfid.volid } <;>
      simp [replicate_btree_stats, btree_stats_calls, hp]
  · simp

/-- C3 witness: the routing statement instantiated at a concrete record in
the concrete synchronous environment, where the stats are applied
immediately to root page `(volid 2, pageid 42)`. -/
theorem C3_btree_stats_routing_witness :
    env_selfloop.redo_data_fetch_ok lsa0 = true
      ∧ read_and_redo_btree_stats env_selfloop lsa0 grec_stats0
        = (if env_selfloop.has_engine then
            [ .engine_add_btree_stats
                { pageid := grec_stats0.btid.root_pageid, volid := grec_stats0.btid.vfid.volid }
                lsa0 grec_stats0.stats ]
          else if env_selfloop.page_fix_ok
              { pageid := grec_stats0.btid.root_pageid, volid := grec_stats0.btid.vfid.volid } then
            [ .btree_apply
                { pageid := grec_stats0.btid.root_pageid, volid := grec_stats0.btid.vfid.volid }
                [ .btree_root_update_stats grec_stats0.stats, .pgbuf_set_lsa lsa0,
                  .pgbuf_set_dirty_and_free ] ]
          else
            [ .fatal "cublog::replicate_btree_stats" ]) :=
  ⟨rfl, C3_btree_stats_routing env_selfloop lsa0 grec_stats0 rfl⟩

/-- C8: for a `LOG_DBEXTERN_REDO_DATA` record, the loop body invokes the
recovery-index redo handler synchronously on the producer thread and hands
no job whatsoever to the parallel engine, whether or not the engine is
instantiated. -/
theorem C8_dbout_redo_sync_dispatch (e : env) (st : replicator_state)
    (h : (e.log st.m_redo_lsa).header.type = .LOG_DBEXTERN_REDO_DATA) :
    .log_rv_redo_record (e.log st.m_redo_lsa).dbout.rcvindex ∈ (redo_upto_step e st).2
      ∧ ∀ c ∈ (redo_upto_step e st).2, c.is_engine_add = false := by
  cases he : e.has_engine <;>
    simp [redo_upto_step, h, he, rv_call.is_engine_add]

/-- C8 witness: the synchronous external-redo dispatch at a concrete
`LOG_DBEXTERN_REDO_DATA` record, with the engine present. -/
theorem C8_dbout_redo_sync_dispatch_witness :
    (env_dbout.log st0.m_redo_lsa).header.type = .LOG_DBEXTERN_REDO_DATA
      ∧ (.log_rv_redo_record (env_dbout.log st0.m_redo_lsa).dbout.rcvindex
          ∈ (redo_upto_step env_dbout st0).2
        ∧ ∀ c ∈ (redo_upto_step env_dbout st0).2, c.is_engine_add = false) :=
  ⟨rfl, C8_dbout_redo_sync_dispatch env_dbout st0 rfl⟩

/-- C9: in `read_and_redo_record` the MVCC bump happens before and
independently of the recovery-index branch: a record routed to the b-tree
stats path (`RVBT_LOG_GLOBAL_UNIQUE_STATS_COMMIT`) still produces
`mvcc_bump` of its MVCCID, and when that MVCCID is non-null and does not
precede `mvcc_next_id` the new `mvcc_next_id` is the MVCCID plus one. -/
theorem C9_mvcc_bump_before_btree_branch (e : env) (next : Nat) (l : log_lsa)
    (r : generic_rec) (h : r.rcvindex = .RVBT_LOG_GLOBAL_UNIQUE_STATS_COMMIT) :
    read_and_redo_record e next l r
        = (mvcc_bump r.mvccid next, read_and_redo_btree_stats e l r)
      ∧ (r.mvccid ≠ MVCCID_NULL → ¬ MVCC_ID_PRECEDES r.mvccid next →
          (read_and_redo_record e next l r).1 = r.mvccid + 1) := by
  constructor
  · unfold read_and_redo_record
    rw [h]
    simp
  · intro hnull hge
    unfold read_and_redo_record mvcc_bump MVCCID_FORWARD
    simp [h, hnull, hge]

/-- C9 witness: the b-tree stats record `grec_stats0` (MVCCID 7) processed
with `mvcc_next_id = 5` bumps it to 8 while routing to the stats path. -/
theorem C9_mvcc_bump_before_btree_branch_witness :
    grec_stats0.rcvindex = .RVBT_LOG_GLOBAL_UNIQUE_STATS_COMMIT
      ∧ (read_and_redo_record env_selfloop 5 lsa0 grec_stats0
          = (mvcc_bump grec_stats0.mvccid 5, read_and_redo_btree_stats env_selfloop lsa0 grec_stats0)
        ∧ (grec_stats0.mvccid ≠ MVCCID_NULL → ¬ MVCC_ID_PRECEDES grec_stats0.mvccid 5 →
            (read_and_redo_record env_selfloop 5 lsa0 grec_stats0).1 = grec_stats0.mvccid + 1)) :=
  ⟨rfl, C9_mvcc_bump_before_btree_branch env_selfloop 5 lsa0 grec_stats0 rfl⟩

/-- C10: `redo_job_btree_stats::execute` returns `NO_ERROR` on every
execution that returns at all — when the root page fix inside
`replicate_btree_stats` fails, the job ends in `logpb_fatal_error` (no
return value reaches the engine), and otherwise it returns `NO_ERROR`. -/
theorem C10_btree_stats_execute_no_error (fix : Bool) (vpid : VPID)
    (stats : log_unique_stats) (l : log_lsa) :
    redo_job_btree_stats_execute fix vpid stats l
      = (if fix then some NO_ERROR else none) := by
  cases fix <;> rfl

end cublog
